import Mathlib

/-!
# go-base: resource bundle initialisers

A shallow embedding of the two Go packages of the repository, `base`
(src/base.go) and `init` (src/init.go), and of the few facts of the libraries
they call (zerolog, time, net/http, context, caarlos0/env).

Conventions of the embedding

* A Go pointer or interface value that may be nil is an `Option`.
* A Go struct is passed by value.  A method with a value receiver therefore
  works on its own copy of the struct and is embedded as a function that
  returns the modified copy, exactly as the Go methods `loadTimeLocation`,
  `loadEnviromentVariables` and `loadHTTPClient` return theirs.
* `panic` is the `error` case of `Except String`, the message being the
  argument of `panic`.
* The calls that leave the package are recorded, in order, in a trace
  (`Outcome.trace`), so that statements about what happens before an abort
  can be made.
* `time.Duration` is an `int64` count of nanoseconds; the code does no
  arithmetic on it besides the constant `10 * time.Second`, so it is embedded
  as `Int`.
* The process environment, the parser of the env library and the time-zone
  database are inputs of the model (`World`).
-/

/-! ## Library types -/

namespace os

/-- The standard streams of the process. -/
inductive File
  | Stdin
  | Stdout
  | Stderr
  deriving DecidableEq, Repr

end os

namespace zerolog

/-- Severity levels of zerolog. -/
inductive Level
  | TraceLevel
  | DebugLevel
  | InfoLevel
  | WarnLevel
  | ErrorLevel
  | FatalLevel
  | PanicLevel
  | NoLevel
  | Disabled
  deriving DecidableEq, Repr

/-- A zerolog logger: the writer it logs to and its minimum level. -/
structure Logger where
  w : os.File
  level : zerolog.Level
  deriving DecidableEq, Repr

/-- The constructor `zerolog.New(w)`: a logger on `w` that lets every level through. -/
def New (w : os.File) : Logger :=
  { w := w, level := zerolog.Level.TraceLevel }

/-- The method `Logger.Level(lvl)`: a copy of the logger with minimum level `lvl`. -/
def Logger.Level (l : Logger) (lvl : zerolog.Level) : Logger :=
  { l with level := lvl }

/-- The method `Logger.GetLevel()`. -/
def Logger.GetLevel (l : Logger) : zerolog.Level :=
  l.level

end zerolog

namespace time

/-- A duration in nanoseconds (Go: `type Duration int64`). -/
abbrev Duration := Int

/-- One second, in nanoseconds. -/
def Second : Duration := 1000000000

/-- A time zone, identified by its name. -/
structure Location where
  name : String
  deriving DecidableEq, Repr

/-- The method `(*Location).String()`. -/
def Location.String (l : Location) : String :=
  l.name

/-- An instant together with the zone it is displayed in. -/
structure Time where
  unixNano : Int
  loc : time.Location
  deriving DecidableEq, Repr

/-- The method `Time.In(loc)`: the same instant in zone `loc`; it panics when `loc` is nil. -/
def Time.In (t : Time) (loc : Option time.Location) : Except String Time :=
  match loc with
  | none => Except.error "time: missing Location in call to Time.In"
  | some l => Except.ok { t with loc := l }

/-- The method `Time.Location()`. -/
def Time.Location (t : Time) : time.Location :=
  t.loc

end time

namespace http

/-- A transport strategy, identified by a handle. -/
structure RoundTripper where
  id : Nat
  deriving DecidableEq, Repr

/-- A cookie jar, identified by a handle. -/
structure CookieJar where
  id : Nat
  deriving DecidableEq, Repr

/-- The package variable `http.DefaultTransport`. -/
def DefaultTransport : RoundTripper :=
  { id := 0 }

/-- The struct `http.Client`, with the three fields the packages set. -/
structure Client where
  Transport : Option RoundTripper
  Jar : Option CookieJar
  Timeout : time.Duration
  deriving DecidableEq, Repr

end http

namespace context

/-- A context: the background context or a cancellable child of a context. -/
inductive Context
  | background
  | cancelCtx (parent : Context)
  deriving DecidableEq, Repr

/-- A cancellation trigger, identified by the context it cancels. -/
structure CancelFunc where
  target : Context
  deriving DecidableEq, Repr

/-- The function `context.Background()`. -/
def Background : Context :=
  Context.background

/-- The function `context.WithCancel(parent)`. -/
def WithCancel (parent : Context) : Context × CancelFunc :=
  (Context.cancelCtx parent, { target := Context.cancelCtx parent })

end context

/-! ## Effects -/

/-- The calls by which `New` leaves its package, in the order they are made. -/
inductive Event
  | contextWithCancel
  | envParse
  | timeLoadLocation (name : String)
  | httpClient
  deriving DecidableEq, Repr

/-- The outcome of running code that may panic: the value or the panic message, and the
calls made up to that point. -/
structure Outcome (β : Type) where
  result : Except String β
  trace : List Event

namespace Outcome

/-- Return a value without making a call. -/
def ret {β : Type} (v : β) : Outcome β :=
  { result := Except.ok v, trace := [] }

/-- Abort with a message. -/
def panic {β : Type} (msg : String) : Outcome β :=
  { result := Except.error msg, trace := [] }

/-- Record a call. -/
def emit (e : Event) : Outcome Unit :=
  { result := Except.ok (), trace := [e] }

/-- Sequencing: a panic of the first part ends the run, its trace kept. -/
def andThen {β γ : Type} (x : Outcome β) (f : β → Outcome γ) : Outcome γ :=
  match x.result with
  | Except.error msg => { result := Except.error msg, trace := x.trace }
  | Except.ok v => { result := (f v).result, trace := x.trace ++ (f v).trace }

instance : Monad Outcome where
  pure := ret
  bind := andThen

/-- Whether the run ended in a panic. -/
def aborted {β : Type} (x : Outcome β) : Bool :=
  match x.result with
  | Except.error _ => true
  | Except.ok _ => false

/-- Apply a function to the value of a run. -/
def mapValue {β γ : Type} (f : β → γ) (x : Outcome β) : Outcome γ :=
  match x.result with
  | Except.error msg => { result := Except.error msg, trace := x.trace }
  | Except.ok v => { result := Except.ok (f v), trace := x.trace }

end Outcome

/-- What the packages read from outside: the process environment, the parser of the env
library for the chosen shape (it fills the value it is given a pointer to, or reports an
error), and the time-zone lookup `time.LoadLocation`. -/
structure World (envType : Type) where
  environ : List (String × String)
  Parse : List (String × String) → envType → Except String envType
  LoadLocation : String → Except String time.Location

/-! ## Package base (src/base.go) -/

namespace BasePkg

/-- The struct `HTTPClientConfig`. -/
structure HTTPClientConfig where
  Transport : Option http.RoundTripper
  Jar : Option http.CookieJar
  Timeout : time.Duration
  deriving DecidableEq, Repr

/-- The struct `Config`. -/
structure Config where
  Logger : Option zerolog.Logger
  TimeLocation : String
  HTTPClientConfig : BasePkg.HTTPClientConfig
  deriving DecidableEq, Repr

/-- The struct `base[envType]`. -/
structure base (envType : Type) where
  ctx : Option context.Context
  cancelCtx : Option context.CancelFunc
  env : envType
  logger : Option zerolog.Logger
  timeLocation : Option time.Location
  httpClient : Option http.Client

/-- The method `(cfg *HTTPClientConfig) validate()`. -/
def HTTPClientConfig.validate (cfg : BasePkg.HTTPClientConfig) : BasePkg.HTTPClientConfig :=
  let cfg := if cfg.Transport = none then { cfg with Transport := some http.DefaultTransport } else cfg
  let cfg := if cfg.Timeout = 0 then { cfg with Timeout := 10 * time.Second } else cfg
  cfg

/-- The method `(cfg *Config) validate()`. -/
def Config.validate (cfg : BasePkg.Config) : BasePkg.Config :=
  let cfg :=
    if cfg.Logger = none then
      let logger := (zerolog.New os.File.Stdout).Level zerolog.Level.InfoLevel
      { cfg with Logger := some logger }
    else cfg
  let cfg := if cfg.TimeLocation = "" then { cfg with TimeLocation := "UTC" } else cfg
  { cfg with HTTPClientConfig := BasePkg.HTTPClientConfig.validate cfg.HTTPClientConfig }

/-- The method `loadTimeLocation`: value receiver, returns the modified copy. -/
def base.loadTimeLocation {envType : Type} (baser : base envType) (w : World envType)
    (cfg : BasePkg.Config) : Outcome (base envType) := do
  Outcome.emit (Event.timeLoadLocation cfg.TimeLocation)
  match w.LoadLocation cfg.TimeLocation with
  | Except.error err => Outcome.panic ("failed to load time location: " ++ err)
  | Except.ok location => pure { baser with timeLocation := some location }

/-- The method `loadEnviromentVariables`: value receiver, returns the modified copy. -/
def base.loadEnviromentVariables {envType : Type} (baser : base envType) (w : World envType) :
    Outcome (base envType) := do
  Outcome.emit Event.envParse
  match w.Parse w.environ baser.env with
  | Except.error err => Outcome.panic ("failed to load env: " ++ err)
  | Except.ok v => pure { baser with env := v }

/-- The method `loadHTTPClient`: value receiver, returns the modified copy. -/
def base.loadHTTPClient {envType : Type} (baser : base envType) (cfg : BasePkg.Config) :
    Outcome (base envType) := do
  Outcome.emit Event.httpClient
  pure { baser with
    httpClient := some
      { Transport := cfg.HTTPClientConfig.Transport
        Jar := cfg.HTTPClientConfig.Jar
        Timeout := cfg.HTTPClientConfig.Timeout } }

/-- The function `New`.  The struct starts with the zero value of every field that the
literal does not set; the three `load` calls are statements whose results are dropped. -/
def New {envType : Type} [Inhabited envType] (w : World envType) (cfg : BasePkg.Config) :
    Outcome (base envType) := do
  let cfg := cfg.validate
  let ctx := context.Background
  Outcome.emit Event.contextWithCancel
  let (ctx, cancel) := context.WithCancel ctx
  let baser : base envType :=
    { ctx := some ctx
      cancelCtx := some cancel
      env := default
      logger := cfg.Logger
      timeLocation := none
      httpClient := none }
  let _ ← baser.loadEnviromentVariables w
  let _ ← baser.loadTimeLocation w cfg
  let _ ← baser.loadHTTPClient cfg
  return baser

/-- The accessor `Ctx`. -/
def base.Ctx {envType : Type} (baser : base envType) : Option context.Context :=
  baser.ctx

/-- The accessor `CancelCtx`. -/
def base.CancelCtx {envType : Type} (baser : base envType) : Option context.CancelFunc :=
  baser.cancelCtx

/-- The accessor `Env`. -/
def base.Env {envType : Type} (baser : base envType) : envType :=
  baser.env

/-- The accessor `Logger`. -/
def base.Logger {envType : Type} (baser : base envType) : Option zerolog.Logger :=
  baser.logger

/-- The accessor `TimeLocation`. -/
def base.TimeLocation {envType : Type} (baser : base envType) : Option time.Location :=
  baser.timeLocation

/-- The accessor `TimeNow`; `now` is the reading `time.Now()` of the clock. -/
def base.TimeNow {envType : Type} (baser : base envType) (now : time.Time) :
    Except String time.Time :=
  now.In baser.timeLocation

/-- The accessor `HTTPClient`. -/
def base.HTTPClient {envType : Type} (baser : base envType) : Option http.Client :=
  baser.httpClient

end BasePkg

/-! ## Package init (src/init.go) -/

namespace InitPkg

/-- The struct `HTTPClientConfig`. -/
structure HTTPClientConfig where
  Transport : Option http.RoundTripper
  Jar : Option http.CookieJar
  Timeout : time.Duration
  deriving DecidableEq, Repr

/-- The struct `Config`. -/
structure Config where
  Logger : Option zerolog.Logger
  TimeLocation : String
  HTTPClientConfig : InitPkg.HTTPClientConfig
  deriving DecidableEq, Repr

/-- The struct `Init[envType]`. -/
structure Init (envType : Type) where
  ctx : Option context.Context
  cancelCtx : Option context.CancelFunc
  env : envType
  logger : Option zerolog.Logger
  timeLocation : Option time.Location
  httpClient : Option http.Client

/-- The method `(cfg *HTTPClientConfig) validate()`. -/
def HTTPClientConfig.validate (cfg : InitPkg.HTTPClientConfig) : InitPkg.HTTPClientConfig :=
  let cfg := if cfg.Transport = none then { cfg with Transport := some http.DefaultTransport } else cfg
  let cfg := if cfg.Timeout = 0 then { cfg with Timeout := 10 * time.Second } else cfg
  cfg

/-- The method `(cfg *Config) validate()`. -/
def Config.validate (cfg : InitPkg.Config) : InitPkg.Config :=
  let cfg :=
    if cfg.Logger = none then
      let logger := (zerolog.New os.File.Stdout).Level zerolog.Level.InfoLevel
      { cfg with Logger := some logger }
    else cfg
  let cfg := if cfg.TimeLocation = "" then { cfg with TimeLocation := "UTC" } else cfg
  { cfg with HTTPClientConfig := InitPkg.HTTPClientConfig.validate cfg.HTTPClientConfig }

/-- The method `loadTimeLocation`: value receiver, returns the modified copy. -/
def Init.loadTimeLocation {envType : Type} (initer : Init envType) (w : World envType)
    (cfg : InitPkg.Config) : Outcome (Init envType) := do
  Outcome.emit (Event.timeLoadLocation cfg.TimeLocation)
  match w.LoadLocation cfg.TimeLocation with
  | Except.error err => Outcome.panic ("failed to load time location: " ++ err)
  | Except.ok location => pure { initer with timeLocation := some location }

/-- The method `loadEnviromentVariables`: value receiver, returns the modified copy. -/
def Init.loadEnviromentVariables {envType : Type} (initer : Init envType) (w : World envType) :
    Outcome (Init envType) := do
  Outcome.emit Event.envParse
  match w.Parse w.environ initer.env with
  | Except.error err => Outcome.panic ("failed to load env: " ++ err)
  | Except.ok v => pure { initer with env := v }

/-- The method `loadHTTPClient`: value receiver, returns the modified copy. -/
def Init.loadHTTPClient {envType : Type} (initer : Init envType) (cfg : InitPkg.Config) :
    Outcome (Init envType) := do
  Outcome.emit Event.httpClient
  pure { initer with
    httpClient := some
      { Transport := cfg.HTTPClientConfig.Transport
        Jar := cfg.HTTPClientConfig.Jar
        Timeout := cfg.HTTPClientConfig.Timeout } }

/-- The function `New`.  The struct starts with the zero value of every field that the
literal does not set; the three `load` calls are statements whose results are dropped. -/
def New {envType : Type} [Inhabited envType] (w : World envType) (cfg : InitPkg.Config) :
    Outcome (Init envType) := do
  let cfg := cfg.validate
  let ctx := context.Background
  Outcome.emit Event.contextWithCancel
  let (ctx, cancel) := context.WithCancel ctx
  let initer : Init envType :=
    { ctx := some ctx
      cancelCtx := some cancel
      env := default
      logger := cfg.Logger
      timeLocation := none
      httpClient := none }
  let _ ← initer.loadEnviromentVariables w
  let _ ← initer.loadTimeLocation w cfg
  let _ ← initer.loadHTTPClient cfg
  return initer

/-- The accessor `Ctx`. -/
def Init.Ctx {envType : Type} (initer : Init envType) : Option context.Context :=
  initer.ctx

/-- The accessor `CancelCtx`. -/
def Init.CancelCtx {envType : Type} (initer : Init envType) : Option context.CancelFunc :=
  initer.cancelCtx

/-- The accessor `Env`. -/
def Init.Env {envType : Type} (initer : Init envType) : envType :=
  initer.env

/-- The accessor `Logger`. -/
def Init.Logger {envType : Type} (initer : Init envType) : Option zerolog.Logger :=
  initer.logger

/-- The accessor `TimeLocation`. -/
def Init.TimeLocation {envType : Type} (initer : Init envType) : Option time.Location :=
  initer.timeLocation

/-- The accessor `TimeNow`; `now` is the reading `time.Now()` of the clock. -/
def Init.TimeNow {envType : Type} (initer : Init envType) (now : time.Time) :
    Except String time.Time :=
  now.In initer.timeLocation

/-- The accessor `HTTPClient`. -/
def Init.HTTPClient {envType : Type} (initer : Init envType) : Option http.Client :=
  initer.httpClient

end InitPkg

/-! ## Comparing the two packages -/

/-- The `init` configuration with the same fields as a `base` HTTP configuration. -/
def BasePkg.HTTPClientConfig.toInit (cfg : BasePkg.HTTPClientConfig) : InitPkg.HTTPClientConfig :=
  { Transport := cfg.Transport, Jar := cfg.Jar, Timeout := cfg.Timeout }

/-- The `init` configuration with the same fields as a `base` configuration. -/
def BasePkg.Config.toInit (cfg : BasePkg.Config) : InitPkg.Config :=
  { Logger := cfg.Logger
    TimeLocation := cfg.TimeLocation
    HTTPClientConfig := BasePkg.HTTPClientConfig.toInit cfg.HTTPClientConfig }

/-- The `base` configuration with the same fields as an `init` configuration. -/
def InitPkg.Config.toBase (cfg : InitPkg.Config) : BasePkg.Config :=
  { Logger := cfg.Logger
    TimeLocation := cfg.TimeLocation
    HTTPClientConfig :=
      { Transport := cfg.HTTPClientConfig.Transport
        Jar := cfg.HTTPClientConfig.Jar
        Timeout := cfg.HTTPClientConfig.Timeout } }

/-- The `init` bundle with the same fields as a `base` bundle. -/
def BasePkg.base.toInit {envType : Type} (baser : BasePkg.base envType) : InitPkg.Init envType :=
  { ctx := baser.ctx
    cancelCtx := baser.cancelCtx
    env := baser.env
    logger := baser.logger
    timeLocation := baser.timeLocation
    httpClient := baser.httpClient }

/-! ## The defaulting rules as the specification words them -/

/-- The default logger of the specification: structured records at info severity on
standard output. -/
def defaultLoggerSpec : zerolog.Logger :=
  { w := os.File.Stdout, level := zerolog.Level.InfoLevel }

/-- Field-wise defaulting, each rule on its own field: logger replaced when absent, zone
name `UTC` when empty, transport the default one when absent, timeout 10 seconds when zero,
cookie jar untouched. -/
def validateSpec (cfg : BasePkg.Config) : BasePkg.Config :=
  { Logger :=
      match cfg.Logger with
      | none => some defaultLoggerSpec
      | some l => some l
    TimeLocation := if cfg.TimeLocation = "" then "UTC" else cfg.TimeLocation
    HTTPClientConfig :=
      { Transport :=
          match cfg.HTTPClientConfig.Transport with
          | none => some http.DefaultTransport
          | some t => some t
        Jar := cfg.HTTPClientConfig.Jar
        Timeout :=
          if cfg.HTTPClientConfig.Timeout = 0 then 10000000000
          else cfg.HTTPClientConfig.Timeout } }

/-! ## Sample inputs -/

namespace os

/-- The function `os.LookupEnv` on an explicit process environment. -/
def LookupEnv (environ : List (String × String)) (key : String) : Option String :=
  match environ with
  | [] => none
  | (k, v) :: rest => if k = key then some v else LookupEnv rest key

end os

namespace base_test

/-- The empty shape `envType` of src/base_test.go. -/
structure envType where
  deriving DecidableEq, Repr

instance : Inhabited envType := ⟨{}⟩

end base_test

/-- The shape `envModel` of the doc comment of `New`: three string fields bound to
`ENVIRONMENT`, `VERSION` and `DATABASE`. -/
structure envModel where
  Environment : String
  Version : String
  Database : String
  deriving DecidableEq, Repr

instance : Inhabited envModel := ⟨{ Environment := "", Version := "", Database := "" }⟩

/-- A shape with one binding that is declared required. -/
structure requiredEnv where
  Environment : String
  deriving DecidableEq, Repr

instance : Inhabited requiredEnv := ⟨{ Environment := "" }⟩

namespace env

/-- The value a string field takes when parsed: that of the variable when it is set, the
field is left as it is otherwise. -/
def field (environ : List (String × String)) (key : String) (current : String) : String :=
  match os.LookupEnv environ key with
  | some v => v
  | none => current

/-- The parser of the env library on the empty shape: nothing to bind. -/
def ParseEmpty (_environ : List (String × String)) (v : base_test.envType) :
    Except String base_test.envType :=
  Except.ok v

/-- The parser of the env library on `envModel`. -/
def ParseEnvModel (environ : List (String × String)) (v : envModel) : Except String envModel :=
  Except.ok
    { Environment := field environ "ENVIRONMENT" v.Environment
      Version := field environ "VERSION" v.Version
      Database := field environ "DATABASE" v.Database }

/-- The parser of the env library on `requiredEnv`: an unset required variable is an error. -/
def ParseRequired (environ : List (String × String)) (_v : requiredEnv) :
    Except String requiredEnv :=
  match os.LookupEnv environ "ENVIRONMENT" with
  | some v => Except.ok { Environment := v }
  | none => Except.error "required environment variable ENVIRONMENT is not set"

end env

/-- A small time-zone database: the empty name and `UTC` give UTC, `America/Sao_Paulo` is
known, every other name is an error. -/
def sampleLoadLocation (name : String) : Except String time.Location :=
  if name = "" ∨ name = "UTC" then Except.ok { name := "UTC" }
  else if name = "America/Sao_Paulo" then Except.ok { name := "America/Sao_Paulo" }
  else Except.error ("unknown time zone " ++ name)

/-- The world of the test: empty shape, empty process environment. -/
def testWorld : World base_test.envType :=
  { environ := [], Parse := env.ParseEmpty, LoadLocation := sampleLoadLocation }

/-- A world where `ENVIRONMENT` and `VERSION` are set, for the shape `envModel`. -/
def serviceWorld : World envModel :=
  { environ := [("ENVIRONMENT", "production"), ("VERSION", "1.4.2")]
    Parse := env.ParseEnvModel
    LoadLocation := sampleLoadLocation }

/-- A world where the required variable is not set. -/
def missingWorld : World requiredEnv :=
  { environ := [("VERSION", "1.4.2")]
    Parse := env.ParseRequired
    LoadLocation := sampleLoadLocation }

/-- The configuration `Config{}` with every field at its zero value. -/
def emptyConfig : BasePkg.Config :=
  { Logger := none
    TimeLocation := ""
    HTTPClientConfig := { Transport := none, Jar := none, Timeout := 0 } }

/-- A configuration that sets only the timeout, to 5 seconds. -/
def fiveSecondConfig : BasePkg.Config :=
  { Logger := none
    TimeLocation := ""
    HTTPClientConfig := { Transport := none, Jar := none, Timeout := 5 * time.Second } }

/-- A configuration that names the zone `America/Sao_Paulo`. -/
def saoPauloConfig : BasePkg.Config :=
  { Logger := none
    TimeLocation := "America/Sao_Paulo"
    HTTPClientConfig := { Transport := none, Jar := none, Timeout := 0 } }

/-- A configuration that names a zone no database knows. -/
def unknownZoneConfig : BasePkg.Config :=
  { Logger := none
    TimeLocation := "Mars/Olympus_Mons"
    HTTPClientConfig := { Transport := none, Jar := none, Timeout := 0 } }

/-- A reading of the clock: some instant, in the local zone. -/
def sampleNow : time.Time :=
  { unixNano := 1700000000000000000, loc := { name := "Local" } }

/-! ## Lemmas on `New` -/

/-- The run of `base.New` in closed form, by the outcome of the two fallible calls. -/
theorem base_New_eq {envType : Type} [Inhabited envType] (w : World envType)
    (cfg : BasePkg.Config) :
    BasePkg.New w cfg =
      match w.Parse w.environ default with
      | Except.error err =>
          { result := Except.error ("failed to load env: " ++ err)
            trace := [Event.contextWithCancel, Event.envParse] }
      | Except.ok _ =>
          match w.LoadLocation cfg.validate.TimeLocation with
          | Except.error err =>
              { result := Except.error ("failed to load time location: " ++ err)
                trace := [Event.contextWithCancel, Event.envParse,
                  Event.timeLoadLocation cfg.validate.TimeLocation] }
          | Except.ok _ =>
              { result := Except.ok
                  { ctx := some (context.Context.cancelCtx context.Context.background)
                    cancelCtx := some { target := context.Context.cancelCtx context.Context.background }
                    env := default
                    logger := cfg.validate.Logger
                    timeLocation := none
                    httpClient := none }
                trace := [Event.contextWithCancel, Event.envParse,
                  Event.timeLoadLocation cfg.validate.TimeLocation, Event.httpClient] } := by
  unfold BasePkg.New BasePkg.base.loadEnviromentVariables BasePkg.base.loadTimeLocation
    BasePkg.base.loadHTTPClient
  cases hp : w.Parse w.environ default with
  | error e => simp [hp, bind, pure, Outcome.andThen, Outcome.emit, Outcome.panic, Outcome.ret]
  | ok v =>
    cases hl : w.LoadLocation cfg.validate.TimeLocation with
    | error e =>
      simp [hp, hl, bind, pure, Outcome.andThen, Outcome.emit, Outcome.panic, Outcome.ret,
        context.WithCancel, context.Background]
    | ok l =>
      simp [hp, hl, bind, pure, Outcome.andThen, Outcome.emit, Outcome.panic, Outcome.ret,
        context.WithCancel, context.Background]

/-- The run of `init.New` in closed form, by the outcome of the two fallible calls. -/
theorem init_New_eq {envType : Type} [Inhabited envType] (w : World envType)
    (cfg : InitPkg.Config) :
    InitPkg.New w cfg =
      match w.Parse w.environ default with
      | Except.error err =>
          { result := Except.error ("failed to load env: " ++ err)
            trace := [Event.contextWithCancel, Event.envParse] }
      | Except.ok _ =>
          match w.LoadLocation cfg.validate.TimeLocation with
          | Except.error err =>
              { result := Except.error ("failed to load time location: " ++ err)
                trace := [Event.contextWithCancel, Event.envParse,
                  Event.timeLoadLocation cfg.validate.TimeLocation] }
          | Except.ok _ =>
              { result := Except.ok
                  { ctx := some (context.Context.cancelCtx context.Context.background)
                    cancelCtx := some { target := context.Context.cancelCtx context.Context.background }
                    env := default
                    logger := cfg.validate.Logger
                    timeLocation := none
                    httpClient := none }
                trace := [Event.contextWithCancel, Event.envParse,
                  Event.timeLoadLocation cfg.validate.TimeLocation, Event.httpClient] } := by
  unfold InitPkg.New InitPkg.Init.loadEnviromentVariables InitPkg.Init.loadTimeLocation
    InitPkg.Init.loadHTTPClient
  cases hp : w.Parse w.environ default with
  | error e => simp [hp, bind, pure, Outcome.andThen, Outcome.emit, Outcome.panic, Outcome.ret]
  | ok v =>
    cases hl : w.LoadLocation cfg.validate.TimeLocation with
    | error e =>
      simp [hp, hl, bind, pure, Outcome.andThen, Outcome.emit, Outcome.panic, Outcome.ret,
        context.WithCancel, context.Background]
    | ok l =>
      simp [hp, hl, bind, pure, Outcome.andThen, Outcome.emit, Outcome.panic, Outcome.ret,
        context.WithCancel, context.Background]

/-- The two `validate` functions agree on every configuration. -/
theorem validate_toInit (cfg : BasePkg.Config) :
    cfg.toInit.validate = cfg.validate.toInit := by
  rcases cfg with ⟨l, tz, ⟨t, j, d⟩⟩
  cases l <;> cases t <;> by_cases hz : tz = "" <;> by_cases hd : d = 0 <;>
    simp [BasePkg.Config.toInit, BasePkg.HTTPClientConfig.toInit, BasePkg.Config.validate,
      BasePkg.HTTPClientConfig.validate, InitPkg.Config.validate,
      InitPkg.HTTPClientConfig.validate, hz, hd]

/-- Whatever the configuration and the world, a bundle that `base.New` returns has no time
location and no HTTP client, and its environment is the zero value of the shape. -/
theorem base_New_returns_unloaded {envType : Type} [Inhabited envType] (w : World envType)
    (cfg : BasePkg.Config) (b : BasePkg.base envType)
    (h : (BasePkg.New w cfg).result = Except.ok b) :
    b.TimeLocation = none ∧ b.HTTPClient = none ∧ b.Env = default ∧
      b.Logger = cfg.validate.Logger := by
  rw [base_New_eq] at h
  cases hp : w.Parse w.environ default with
  | error e => simp [hp] at h
  | ok v =>
    cases hl : w.LoadLocation cfg.validate.TimeLocation with
    | error e => simp [hp, hl] at h
    | ok l =>
      simp [hp, hl] at h
      subst h
      exact ⟨rfl, rfl, rfl, rfl⟩

/-! ## Claims -/

/-- C1 (the code at `Config{}`): with every optional field empty, `base.New` returns a
bundle whose logger has severity info, but whose `HTTPClient()` and `TimeLocation()` are
nil, although the validated configuration carries the timeout of 10 seconds and the zone
name UTC, which the sample database resolves. -/
theorem C1_New_emptyConfig_unloaded :
    ∃ b : BasePkg.base base_test.envType,
      (BasePkg.New testWorld emptyConfig).result = Except.ok b ∧
      b.Logger.map zerolog.Logger.GetLevel = some zerolog.Level.InfoLevel ∧
      b.HTTPClient = none ∧
      b.TimeLocation = none ∧
      emptyConfig.validate.HTTPClientConfig.Timeout = 10 * time.Second ∧
      testWorld.LoadLocation emptyConfig.validate.TimeLocation = Except.ok { name := "UTC" } :=
  ⟨_, rfl, rfl, rfl, rfl, by decide, rfl⟩

/-- C2 (the code at a timeout of 5 seconds): the validated HTTP sub-configuration keeps the
timeout of 5 seconds, but the bundle that `base.New` returns has no HTTP client at all. -/
theorem C2_New_fiveSecond_no_client :
    ∃ b : BasePkg.base base_test.envType,
      (BasePkg.New testWorld fiveSecondConfig).result = Except.ok b ∧
      fiveSecondConfig.validate.HTTPClientConfig.Timeout = 5 * time.Second ∧
      b.HTTPClient = none :=
  ⟨_, rfl, by decide, rfl⟩

/-- C3 (the code on a process environment that sets two bindings): parsing succeeds and
fills the shape, but `Env()` of the bundle that `base.New` returns is the zero value of the
shape, not the parsed value. -/
theorem C3_Env_zero_value :
    ∃ (b : BasePkg.base envModel) (parsed : envModel),
      (BasePkg.New serviceWorld emptyConfig).result = Except.ok b ∧
      serviceWorld.Parse serviceWorld.environ default = Except.ok parsed ∧
      parsed = { Environment := "production", Version := "1.4.2", Database := "" } ∧
      b.Env = { Environment := "", Version := "", Database := "" } ∧
      b.Env ≠ parsed :=
  ⟨_, _, rfl, rfl, rfl, rfl, by decide⟩

/-- C4 (the code at the zone `America/Sao_Paulo`): the zone name is resolved, but
`TimeLocation()` of the bundle that `base.New` returns is nil and `TimeNow()` panics on the
missing location instead of returning an instant. -/
theorem C4_TimeNow_missing_location :
    ∃ b : BasePkg.base base_test.envType,
      (BasePkg.New testWorld saoPauloConfig).result = Except.ok b ∧
      testWorld.LoadLocation saoPauloConfig.validate.TimeLocation =
        Except.ok { name := "America/Sao_Paulo" } ∧
      b.TimeLocation = none ∧
      b.TimeNow sampleNow = Except.error "time: missing Location in call to Time.In" :=
  ⟨_, rfl, rfl, rfl, rfl⟩

/-- C5: if the defaulted time-zone name is not recognised, `base.New` aborts; if it is
recognised and parsing the environment succeeds, `base.New` returns a bundle. -/
theorem C5_New_aborts_iff_zone_unknown {envType : Type} [Inhabited envType]
    (w : World envType) (cfg : BasePkg.Config) :
    (∀ err, w.LoadLocation cfg.validate.TimeLocation = Except.error err →
      (BasePkg.New w cfg).aborted = true) ∧
    (∀ loc v, w.LoadLocation cfg.validate.TimeLocation = Except.ok loc →
      w.Parse w.environ default = Except.ok v →
      ∃ b, (BasePkg.New w cfg).result = Except.ok b) := by
  constructor
  · intro err hl
    rw [base_New_eq]
    cases hp : w.Parse w.environ default with
    | error e => simp [Outcome.aborted]
    | ok v => simp [hl, Outcome.aborted]
  · intro loc v hl hp
    rw [base_New_eq]
    simp [hl, hp]

/-- C5 at concrete inputs: an unknown zone name aborts, the empty configuration returns. -/
theorem C5_New_aborts_iff_zone_unknown_witness :
    (BasePkg.New testWorld unknownZoneConfig).aborted = true ∧
    (∃ b, (BasePkg.New testWorld emptyConfig).result = Except.ok b) :=
  ⟨(C5_New_aborts_iff_zone_unknown testWorld unknownZoneConfig).1
      "unknown time zone Mars/Olympus_Mons" rfl,
    (C5_New_aborts_iff_zone_unknown testWorld emptyConfig).2
      { name := "UTC" } {} rfl rfl⟩

/-- C6: when parsing the environment into the shape reports an error, `base.New` aborts with
that error, and the only calls made before the abort are the creation of the context and the
parse itself: no time-zone resolution and no HTTP client construction. -/
theorem C6_New_aborts_on_parse_error {envType : Type} [Inhabited envType]
    (w : World envType) (cfg : BasePkg.Config) (err : String)
    (h : w.Parse w.environ default = Except.error err) :
    (BasePkg.New w cfg).result = Except.error ("failed to load env: " ++ err) ∧
    (BasePkg.New w cfg).aborted = true ∧
    (BasePkg.New w cfg).trace = [Event.contextWithCancel, Event.envParse] ∧
    Event.httpClient ∉ (BasePkg.New w cfg).trace ∧
    ∀ name, Event.timeLoadLocation name ∉ (BasePkg.New w cfg).trace := by
  rw [base_New_eq]
  simp [h, Outcome.aborted]

/-- C6 at a concrete input: the required variable `ENVIRONMENT` is not set. -/
theorem C6_New_aborts_on_parse_error_witness :
    missingWorld.Parse missingWorld.environ default =
        Except.error "required environment variable ENVIRONMENT is not set" ∧
    (BasePkg.New missingWorld emptyConfig).aborted = true ∧
    (BasePkg.New missingWorld emptyConfig).trace = [Event.contextWithCancel, Event.envParse] :=
  ⟨rfl,
    (C6_New_aborts_on_parse_error missingWorld emptyConfig
      "required environment variable ENVIRONMENT is not set" rfl).2.1,
    (C6_New_aborts_on_parse_error missingWorld emptyConfig
      "required environment variable ENVIRONMENT is not set" rfl).2.2.1⟩

/-- C7 as stated fails: a timeout of minus one nanosecond is left as it is by `validate`, in
both packages, so the timeout after `validate` is not greater than 0. -/
theorem C7_negative_timeout_kept :
    (BasePkg.HTTPClientConfig.validate { Transport := none, Jar := none, Timeout := -1 }).Timeout
        = -1 ∧
    (InitPkg.HTTPClientConfig.validate { Transport := none, Jar := none, Timeout := -1 }).Timeout
        = -1 ∧
    ¬ (∀ cfg : BasePkg.HTTPClientConfig, 0 < cfg.validate.Timeout) ∧
    ¬ (∀ cfg : InitPkg.HTTPClientConfig, 0 < cfg.validate.Timeout) := by
  refine ⟨by decide, by decide, ?_, ?_⟩
  · intro h
    exact absurd (h { Transport := none, Jar := none, Timeout := -1 }) (by decide)
  · intro h
    exact absurd (h { Transport := none, Jar := none, Timeout := -1 }) (by decide)

/-- C7 amended: for every HTTPClientConfig whose timeout is not negative, the timeout after
`validate` is strictly greater than 0, in both packages. -/
theorem C7_validate_timeout_pos (cfg : BasePkg.HTTPClientConfig) (h : 0 ≤ cfg.Timeout) :
    0 < cfg.validate.Timeout ∧ 0 < cfg.toInit.validate.Timeout := by
  rcases cfg with ⟨t, j, d⟩
  simp only at h
  by_cases hd : d = 0
  · cases t <;>
      simp [BasePkg.HTTPClientConfig.validate, InitPkg.HTTPClientConfig.validate,
        BasePkg.HTTPClientConfig.toInit, hd, time.Second]
  · have hpos : 0 < d := lt_of_le_of_ne h (Ne.symm hd)
    cases t <;>
      simp [BasePkg.HTTPClientConfig.validate, InitPkg.HTTPClientConfig.validate,
        BasePkg.HTTPClientConfig.toInit, hd, hpos]

/-- C7 amended, at the zero timeout: it becomes 10 seconds, which is positive. -/
theorem C7_validate_timeout_pos_witness :
    (0 : Int) ≤ 0 ∧
    0 < (BasePkg.HTTPClientConfig.validate
          { Transport := none, Jar := none, Timeout := 0 }).Timeout ∧
    0 < (InitPkg.HTTPClientConfig.validate
          { Transport := none, Jar := none, Timeout := 0 }).Timeout :=
  ⟨le_refl 0,
    C7_validate_timeout_pos { Transport := none, Jar := none, Timeout := 0 } (le_refl 0)⟩

/-- C8: `Config.validate` is the field-wise defaulting function of the specification, and
each field is changed exactly when it was empty: the zone name when it was the empty string,
the timeout when it was zero, the transport and the logger when they were absent; the cookie
jar is never changed. -/
theorem C8_validate_eq_validateSpec (cfg : BasePkg.Config) :
    cfg.validate = validateSpec cfg ∧
    (cfg.validate.TimeLocation ≠ cfg.TimeLocation ↔ cfg.TimeLocation = "") ∧
    (cfg.validate.HTTPClientConfig.Timeout ≠ cfg.HTTPClientConfig.Timeout ↔
      cfg.HTTPClientConfig.Timeout = 0) ∧
    (cfg.validate.HTTPClientConfig.Transport ≠ cfg.HTTPClientConfig.Transport ↔
      cfg.HTTPClientConfig.Transport = none) ∧
    (cfg.validate.Logger ≠ cfg.Logger ↔ cfg.Logger = none) ∧
    cfg.validate.HTTPClientConfig.Jar = cfg.HTTPClientConfig.Jar := by
  rcases cfg with ⟨l, tz, ⟨t, j, d⟩⟩
  cases l <;> cases t <;> by_cases hz : tz = "" <;> by_cases hd : d = 0 <;>
    simp [BasePkg.Config.validate, BasePkg.HTTPClientConfig.validate, validateSpec,
      defaultLoggerSpec, zerolog.New, zerolog.Logger.Level, time.Second, hz, hd]

/-- C9 (the code at `Config{}`): the bundle that `base.New` returns has a context, a
cancellation trigger and a logger, but `TimeLocation()` and `HTTPClient()` return nil and
`TimeNow()` panics on the missing location, whatever the clock reads. -/
theorem C9_accessors_nil_and_TimeNow_panics :
    ∃ b : BasePkg.base base_test.envType,
      (BasePkg.New testWorld emptyConfig).result = Except.ok b ∧
      b.Ctx.isSome = true ∧ b.CancelCtx.isSome = true ∧ b.Logger.isSome = true ∧
      b.TimeLocation.isSome = false ∧
      b.HTTPClient.isSome = false ∧
      ∀ now : time.Time, ∃ msg, b.TimeNow now = Except.error msg :=
  ⟨_, rfl, rfl, rfl, rfl, rfl, rfl, fun _ => ⟨_, rfl⟩⟩

/-- C10: the packages `base` and `init` are the same capability.  Their `validate` functions
agree on every configuration, every `init` configuration is the image of a `base` one, the
run of `init.New` is the run of `base.New` (same abort with the same message, or the same
bundle, and the same calls), and the seven accessors agree on every bundle. -/
theorem C10_base_init_agree {envType : Type} [Inhabited envType] (w : World envType)
    (cfg : BasePkg.Config) (now : time.Time) :
    cfg.toInit.validate = cfg.validate.toInit ∧
    (∀ c : InitPkg.Config, c.toBase.toInit = c) ∧
    InitPkg.New w cfg.toInit = Outcome.mapValue BasePkg.base.toInit (BasePkg.New w cfg) ∧
    (InitPkg.New w cfg.toInit).aborted = (BasePkg.New w cfg).aborted ∧
    (∀ b : BasePkg.base envType,
      b.toInit.Ctx = b.Ctx ∧ b.toInit.CancelCtx = b.CancelCtx ∧ b.toInit.Env = b.Env ∧
      b.toInit.Logger = b.Logger ∧ b.toInit.TimeLocation = b.TimeLocation ∧
      b.toInit.TimeNow now = b.TimeNow now ∧ b.toInit.HTTPClient = b.HTTPClient) := by
  have hrun : InitPkg.New w cfg.toInit =
      Outcome.mapValue BasePkg.base.toInit (BasePkg.New w cfg) := by
    rw [init_New_eq, base_New_eq, validate_toInit]
    cases hp : w.Parse w.environ default with
    | error e => simp [Outcome.mapValue]
    | ok v =>
      have hz : cfg.validate.toInit.TimeLocation = cfg.validate.TimeLocation := rfl
      rw [hz]
      cases hl : w.LoadLocation cfg.validate.TimeLocation with
      | error e => simp [Outcome.mapValue]
      | ok l => simp [Outcome.mapValue, BasePkg.base.toInit, BasePkg.Config.toInit]
  refine ⟨validate_toInit cfg, ?_, hrun, ?_, ?_⟩
  · intro c
    rfl
  · rw [hrun]
    cases hr : (BasePkg.New w cfg).result <;> simp [Outcome.mapValue, Outcome.aborted, hr]
  · intro b
    exact ⟨rfl, rfl, rfl, rfl, rfl, rfl, rfl⟩
